import Mathlib

/-!
Shallow embedding of the `network_security` scripts
(`verify_network_security.py` and `apply_vmware_firewall.py`):
the Firewall State Inspector (strict parser of `iptables -S INPUT`
listings plus the first-match-wins block evaluator) and the Guarded
Change Orchestrator (precondition gate, apply loop, confirmation wait
loop and the escalating rollback strategy).

External effects (subprocess return codes, file existence, the signal
flag, sampled clock values) are modelled as oracle functions supplied
in small environment structures; each embedded function returns the
data the script computes together with a trace of the side effects it
performs.  Python string primitives (`str.strip`, `str.split`,
`str.split('\n')`, the `in` substring test, `int(...)`) are embedded
as the helpers below with matching semantics on the ASCII inputs the
scripts handle.
-/

namespace NetworkSecurity

/-- Strip whitespace from both ends of a character list (Python `str.strip`
on the underlying characters). -/
def trimChars (l : List Char) : List Char :=
  ((l.dropWhile Char.isWhitespace).reverse.dropWhile Char.isWhitespace).reverse

/-- Python `s.strip()`.  Implemented over `String.data` so that concrete
inputs evaluate by kernel reduction. -/
def pyStrip (s : String) : String :=
  String.mk (trimChars s.data)

/-- Split a character list at every occurrence of `c` (Python
`str.split(c)`): always at least one piece, empty pieces kept. -/
def splitOnCharGo (c : Char) : List Char → List (List Char)
  | [] => [[]]
  | x :: xs =>
    match splitOnCharGo c xs with
    | [] => [[]]
    | h :: t => if x = c then [] :: h :: t else (x :: h) :: t

/-- Python `s.strip().split('\n')` : the list of lines a script iterates
over.  For empty input this is `[""]`, exactly as in Python. -/
def linesOf (s : String) : List String :=
  (splitOnCharGo '\n' (pyStrip s).data).map String.mk

/-- The whitespace-splitting loop of Python `str.split()` (no argument):
`acc` holds the current token reversed; empty pieces are discarded. -/
def splitWsGo : List Char → List Char → List (List Char)
  | [], acc => if acc.isEmpty then [] else [acc.reverse]
  | c :: cs, acc =>
    if Char.isWhitespace c then
      if acc.isEmpty then splitWsGo cs [] else acc.reverse :: splitWsGo cs []
    else splitWsGo cs (c :: acc)

/-- Python `s.split()` : split on whitespace runs, discarding empty pieces. -/
def pySplitWs (s : String) : List String :=
  (splitWsGo s.data []).map String.mk

/-- Python `[l.strip() for l in s.strip().split('\n') if l.strip()]` :
the stripped non-blank lines of a listing. -/
def nonblankLines (s : String) : List String :=
  ((linesOf s).map pyStrip).filter (fun l => l ≠ "")

/-- Does the second list start with the first one? -/
def beginsWith : List Char → List Char → Bool
  | [], _ => true
  | _ :: _, [] => false
  | a :: as, b :: bs => a = b && beginsWith as bs

/-- Does `needle` occur as a contiguous run inside the second list? -/
def containsSeq (needle : List Char) : List Char → Bool
  | [] => needle.isEmpty
  | c :: cs => beginsWith needle (c :: cs) || containsSeq needle cs

/-- Python `pat in s`. -/
def pyContains (s pat : String) : Bool :=
  containsSeq pat.data s.data

/-- Python `s.startswith(pre)`. -/
def pyStartsWith (s pre : String) : Bool :=
  beginsWith pre.data s.data

/-- Decimal digits to their value, or `none` when empty or non-digit. -/
def pyDigits? (l : List Char) : Option Nat :=
  if l.isEmpty then none
  else if l.all Char.isDigit then
    some (l.foldl (fun a c => a * 10 + (c.toNat - 48)) 0)
  else none

/-- Python `int(token)` on a whitespace-free token: optional sign then
digits, `none` (a `ValueError`) otherwise. -/
def pyInt? (s : String) : Option Int :=
  match s.data with
  | '+' :: ds => (pyDigits? ds).map (fun n => Int.ofNat n)
  | '-' :: ds => (pyDigits? ds).map (fun n => -(Int.ofNat n))
  | ds => (pyDigits? ds).map (fun n => Int.ofNat n)

/-! ### Firewall State Inspector: data model (verify_network_security.py) -/

/-- One parsed rule of the INPUT chain (`IptablesRule` dataclass). -/
structure IptablesRule where
  rule_number : Nat
  protocol : String
  port : Int
  action : String
  raw_line : String
deriving Repr, DecidableEq

/-- The parsed INPUT chain (`IptablesChain` dataclass). -/
structure IptablesChain where
  policy : String
  rules : List IptablesRule
deriving Repr, DecidableEq

/-- Outcome of processing one line of `-S` output inside the parse loop:
either the loop raises `IptablesParseError`, or it continues with an
updated `(policy, rule_number, rules)` state. -/
inductive LineStep where
  | err (msg : String)
  | cont (policy : Option String) (ruleNumber : Nat) (rules : List IptablesRule)
deriving Repr, DecidableEq

/-- True when the step raises. -/
def LineStep.isErr : LineStep → Bool
  | .err _ => true
  | .cont _ _ _ => false

/-- The body of the `for line in lines` loop of `parse_iptables_s_output`,
processing a single line against the running state. -/
def processLine (cmd line : String) (policy : Option String) (n : Nat)
    (rules : List IptablesRule) : LineStep :=
  let l := pyStrip line
  if l = "" then .cont policy n rules
  else
    let parts := pySplitWs l
    if parts.length < 2 then
      .err (cmd ++ ": unexpected line format (too few parts): " ++ l)
    else if parts.getD 0 "" = "-P" then
      if parts.length ≠ 3 then
        .err (cmd ++ ": unexpected policy line format: " ++ l)
      else if parts.getD 1 "" ≠ "INPUT" then
        .err (cmd ++ ": expected INPUT chain but got " ++ parts.getD 1 "" ++ ": " ++ l)
      else if parts.getD 2 "" ≠ "ACCEPT" ∧ parts.getD 2 "" ≠ "DROP" then
        .err (cmd ++ ": unexpected policy " ++ parts.getD 2 "" ++ ": " ++ l)
      else .cont (some (parts.getD 2 "")) n rules
    else if parts.getD 0 "" = "-A" then
      if parts.length < 3 then
        .err (cmd ++ ": unexpected rule line format: " ++ l)
      else if parts.getD 1 "" ≠ "INPUT" then .cont policy n rules
      else
        let n' := n + 1
        match parts.findIdx? (fun t => t = "-p") with
        | none => .cont policy n' rules
        | some pIdx =>
          if pIdx + 1 < parts.length then
            let protocol := parts.getD (pIdx + 1) ""
            if protocol ≠ "tcp" ∧ protocol ≠ "udp" then .cont policy n' rules
            else
              match parts.findIdx? (fun t => t = "--dport") with
              | none => .cont policy n' rules
              | some dIdx =>
                if dIdx + 1 < parts.length then
                  match pyInt? (parts.getD (dIdx + 1) "") with
                  | none => .cont policy n' rules
                  | some port =>
                    match parts.findIdx? (fun t => t = "-j") with
                    | none => .err (cmd ++ ": rule without -j action: " ++ l)
                    | some jIdx =>
                      if jIdx + 1 < parts.length then
                        .cont policy n'
                          (rules ++ [{ rule_number := n', protocol := protocol,
                                       port := port, action := parts.getD (jIdx + 1) "",
                                       raw_line := l }])
                      else .err (cmd ++ ": rule without -j action: " ++ l)
                else .cont policy n' rules
          else .cont policy n' rules
    else
      .err (cmd ++ ": unexpected line type " ++ parts.getD 0 "" ++ ": " ++ l)

/-- The parse loop of `parse_iptables_s_output` over the remaining lines. -/
def parseGo (cmd : String) : List String → Option String → Nat → List IptablesRule →
    Except String IptablesChain
  | [], policy, _, rules =>
    match policy with
    | none => .error (cmd ++ ": no policy line (-P INPUT ...) found in output")
    | some p => .ok { policy := p, rules := rules }
  | line :: rest, policy, n, rules =>
    match processLine cmd line policy n rules with
    | .err msg => .error msg
    | .cont policy' n' rules' => parseGo cmd rest policy' n' rules'

/-- Embedding of `parse_iptables_s_output(output, command_name)`:
parse `iptables -S INPUT` text into an `IptablesChain`, raising
`IptablesParseError` (modelled as `Except.error`) on format drift. -/
def parse_iptables_s_output (output : String) (cmd : String) :
    Except String IptablesChain :=
  parseGo cmd (linesOf output) none 0 []

/-- The rule-scanning loop of `check_port_is_blocked`. -/
def checkRulesGo (protocol : String) (port : Int) (policy : String) :
    List IptablesRule → Bool × String
  | [] =>
    if policy = "DROP" then
      (true, "No explicit rule, but default policy is DROP")
    else
      (false, "No DROP/REJECT rule found for this port")
  | r :: rest =>
    if r.protocol = protocol ∧ r.port = port then
      if r.action = "DROP" ∨ r.action = "REJECT" then
        (true, "Blocked by rule #" ++ toString r.rule_number ++ " (" ++ r.action ++ ")")
      else if r.action = "ACCEPT" then
        (false, "ACCEPTED by rule #" ++ toString r.rule_number ++ " BEFORE any DROP/REJECT")
      else
        (false, "Unknown action " ++ r.action ++ " in rule #" ++ toString r.rule_number)
    else checkRulesGo protocol port policy rest

/-- Embedding of `check_port_is_blocked(chain, protocol, port)`:
first matching rule wins, default policy applies when nothing matches. -/
def check_port_is_blocked (chain : IptablesChain) (protocol : String) (port : Int) :
    Bool × String :=
  checkRulesGo protocol port chain.policy chain.rules

/-- Modelled from the spec: section 4.1 `IsEmpty(chain)` (no function of the
sources implements it directly) — true iff the parsed `rules` sequence is
empty, ignoring the policy line. -/
def IsEmptySpec (chain : IptablesChain) : Bool :=
  chain.rules.isEmpty

/-! ### Guarded Change Orchestrator: data model (apply_vmware_firewall.py) -/

/-- An address family: `iptables` (v4) or `ip6tables` (v6). -/
inductive Family where
  | v4
  | v6
deriving Repr, DecidableEq

/-- One entry of `VMWARE_BLOCK_RULES`: a `(protocol, port, description)`
change item to append as a DROP rule. -/
structure ChangeItem where
  protocol : String
  port : Int
  description : String
deriving Repr, DecidableEq

/-- The ordered change set of `apply_vmware_firewall.py`. -/
def VMWARE_BLOCK_RULES : List ChangeItem :=
  [ { protocol := "tcp", port := 902, description := "VMware Authentication Daemon" },
    { protocol := "udp", port := 902, description := "VMware Authentication Daemon (UDP)" },
    { protocol := "tcp", port := 912, description := "VMware Authorization Service" },
    { protocol := "tcp", port := 8222, description := "VMware Management Interface (HTTP)" },
    { protocol := "tcp", port := 8333, description := "VMware Management Interface (HTTPS)" } ]

/-- The `REQUIRED_COMMANDS` list checked by `verify_commands_exist`. -/
def REQUIRED_COMMANDS : List String :=
  [ "iptables", "ip6tables",
    "iptables-save", "ip6tables-save",
    "iptables-restore", "ip6tables-restore",
    "netfilter-persistent" ]

/-- Both address families, in the order the script iterates them. -/
def bothFamilies : List Family := [Family.v4, Family.v6]

/-- Environment oracle for a `main` run of `apply_vmware_firewall.py`:
the observations the precondition and backup phases make of the host. -/
structure MainEnv where
  isRoot : Bool
  whichOk : String → Bool
  listingRC : Family → Int
  listing : Family → String
  saveRC : Family → Int
  backupExistsAtStart : Family → Bool

/-- Embedding of `verify_iptables_format` for one family: return code zero,
first line is a `-P INPUT` policy with value ACCEPT or DROP, and every later
non-blank line starts with the INPUT rule marker. -/
def verify_iptables_format_one (rc : Int) (stdout : String) : Bool :=
  rc = 0 ∧
  (let lines := linesOf stdout
   ¬lines.isEmpty ∧
   (let first_line := pyStrip (lines.getD 0 "")
    pyStartsWith first_line "-P INPUT " ∧
    (let policy := (pySplitWs first_line).getLastD ""
     (policy = "ACCEPT" ∨ policy = "DROP")) ∧
    lines.tail.all (fun l => pyStrip l = "" ∨ pyStartsWith (pyStrip l) "-A INPUT ")))

/-- Embedding of the per-family body of `verify_input_chain_empty`:
the listing has exactly one stripped non-blank line (the policy line). -/
def verify_input_chain_empty_one (stdout : String) : Bool :=
  (nonblankLines stdout).length = 1

/-- Embedding of the per-family body of `verify_policy_is_accept`:
the last whitespace token of the first listing line is ACCEPT. -/
def verify_policy_is_accept_one (stdout : String) : Bool :=
  (pySplitWs ((linesOf stdout).getD 0 "")).getLastD "" = "ACCEPT"

/-- Embedding of `run_all_verifications`: every precondition check passes.
In the script each check calls `sys.exit(1)` on failure, so the run proceeds
past the verification phase exactly when this conjunction holds. -/
def run_all_verifications (env : MainEnv) : Bool :=
  env.isRoot ∧
  REQUIRED_COMMANDS.all env.whichOk ∧
  bothFamilies.all (fun f => verify_iptables_format_one (env.listingRC f) (env.listing f)) ∧
  bothFamilies.all (fun f => verify_input_chain_empty_one (env.listing f)) ∧
  bothFamilies.all (fun f => verify_policy_is_accept_one (env.listing f)) ∧
  ¬(env.backupExistsAtStart Family.v4 ∨ env.backupExistsAtStart Family.v6)

/-- Result of the apply loop: the append commands actually invoked (in
order), whether `aggressive_rollback` was invoked, and the `sys.exit`
code if the loop exited the process (`none` = fell through normally). -/
structure ApplyResult where
  invoked : List (Family × ChangeItem)
  rollbackInvoked : Bool
  exitCode : Option Int
deriving Repr, DecidableEq

/-- The `for protocol, port, description in VMWARE_BLOCK_RULES` loop of
`apply_rules`: per item, append the v4 rule then the v6 rule; on the first
non-zero return code invoke `aggressive_rollback()` and `sys.exit(1)`. -/
def applyRulesGo (applyOk : Family → ChangeItem → Bool) :
    List ChangeItem → List (Family × ChangeItem) → ApplyResult
  | [], acc => { invoked := acc, rollbackInvoked := false, exitCode := none }
  | item :: rest, acc =>
    let acc4 := acc ++ [(Family.v4, item)]
    if applyOk Family.v4 item = false then
      { invoked := acc4, rollbackInvoked := true, exitCode := some 1 }
    else
      let acc6 := acc4 ++ [(Family.v6, item)]
      if applyOk Family.v6 item = false then
        { invoked := acc6, rollbackInvoked := true, exitCode := some 1 }
      else applyRulesGo applyOk rest acc6

/-- Embedding of `apply_rules`: apply the whole change set in input order. -/
def apply_rules (applyOk : Family → ChangeItem → Bool) : ApplyResult :=
  applyRulesGo applyOk VMWARE_BLOCK_RULES []

/-- Observable side effects and exit status of a `main` run up to the end of
the apply phase: which snapshot files were written, which change-item
commands were invoked, whether rollback ran, and the exit code (`none` =
the run reached the wait-for-confirmation phase). -/
structure MainResult where
  snapshotsWritten : List Family
  changeCmdsInvoked : List (Family × ChangeItem)
  rollbackInvoked : Bool
  exitCode : Option Int
deriving Repr, DecidableEq

/-- Embedding of `main` from the verification phase through the apply phase:
`run_all_verifications` (abort on failure, before any side effect), then
`create_backup` (write the v4 snapshot after `iptables-save` succeeds, then
the v6 snapshot; abort on a non-zero save), then `apply_rules`. -/
def mainModel (env : MainEnv) (applyOk : Family → ChangeItem → Bool) : MainResult :=
  if run_all_verifications env = false then
    { snapshotsWritten := [], changeCmdsInvoked := [], rollbackInvoked := false,
      exitCode := some 1 }
  else if env.saveRC Family.v4 ≠ 0 then
    { snapshotsWritten := [], changeCmdsInvoked := [], rollbackInvoked := false,
      exitCode := some 1 }
  else if env.saveRC Family.v6 ≠ 0 then
    { snapshotsWritten := [Family.v4], changeCmdsInvoked := [], rollbackInvoked := false,
      exitCode := some 1 }
  else
    let r := apply_rules applyOk
    { snapshotsWritten := [Family.v4, Family.v6], changeCmdsInvoked := r.invoked,
      rollbackInvoked := r.rollbackInvoked, exitCode := r.exitCode }

/-! ### Rollback strategy (aggressive_rollback) -/

/-- Environment oracle for `aggressive_rollback`: whether each backup file
exists, the outcome of each numbered restore / flush / per-rule-delete
attempt, and the `-S INPUT` listing observed by the post-hoc verification. -/
structure RollbackEnv where
  backupExists : Family → Bool
  restoreOk : Family → Nat → Bool
  flushOk : Family → Nat → Bool
  deleteOk : Family → ChangeItem → Nat → Bool
  postListing : Family → String

/-- A `for attempt in range(3): ... if ok: break` retry loop, unrolled:
returns whether an attempt succeeded and how many attempts were issued. -/
def try3 (ok : Nat → Bool) : Bool × Nat :=
  if ok 0 then (true, 1)
  else if ok 1 then (true, 2)
  else if ok 2 then (true, 3)
  else (false, 3)

/-- Attempt 1 of the rollback for one family: restore from the backup file
(3 tries), skipped — and counted as not successful — when the file is absent. -/
def rollbackRestoreSuccess (env : RollbackEnv) (f : Family) : Bool :=
  env.backupExists f ∧ (try3 (env.restoreOk f)).1

/-- Success flag for one family after Attempt 2: restore succeeded, or else
a flush of the INPUT chain succeeded (3 tries). -/
def rollbackAfterFlushSuccess (env : RollbackEnv) (f : Family) : Bool :=
  if rollbackRestoreSuccess env f then true else (try3 (env.flushOk f)).1

/-- The body of Attempt 3 over the (already reversed) change-item list:
for each item, when the family is still unsuccessful, try to delete its rule
(up to 3 attempts, stopping at the first success).  Returns the trace of
issued delete commands and the two `all_deleted` flags. -/
def attempt3Go (env : RollbackEnv) (doV4 doV6 : Bool) :
    List ChangeItem → List (Family × ChangeItem) × Bool × Bool
  | [] => ([], true, true)
  | item :: rest =>
    let resV4 :=
      if doV4 then
        let t := try3 (env.deleteOk Family.v4 item)
        (List.replicate t.2 ((Family.v4, item) : Family × ChangeItem), t.1)
      else ([], true)
    let resV6 :=
      if doV6 then
        let t := try3 (env.deleteOk Family.v6 item)
        (List.replicate t.2 ((Family.v6, item) : Family × ChangeItem), t.1)
      else ([], true)
    let resRest := attempt3Go env doV4 doV6 rest
    (resV4.1 ++ resV6.1 ++ resRest.1, resV4.2 && resRest.2.1, resV6.2 && resRest.2.2)

/-- The post-hoc verification loop of `aggressive_rollback`: scan the fresh
`-S INPUT` listings of both families for any line that still carries one of
the change items as a DROP rule (substring tests, exactly as the script). -/
def rollbackVerifyFailed (env : RollbackEnv) : Bool :=
  bothFamilies.any (fun f =>
    (nonblankLines (env.postListing f)).any (fun line =>
      VMWARE_BLOCK_RULES.any (fun item =>
        pyContains line ("-p " ++ item.protocol) ∧
        pyContains line ("--dport " ++ toString item.port) ∧
        pyContains line "-j DROP")))

/-- Final outcome of the rollback strategy. -/
inductive RollbackOutcome where
  | rolledBack
  | rollbackIncomplete
deriving Repr, DecidableEq

/-- Result of `aggressive_rollback`: the per-family success flags, the
post-hoc verification flag, the trace of per-rule delete commands, whether
the backup files were deleted, which retained backup paths were reported,
and the printed final outcome. -/
structure RollbackResult where
  successV4 : Bool
  successV6 : Bool
  verifyFailed : Bool
  deleteTrace : List (Family × ChangeItem)
  backupsDeleted : Bool
  retainedReported : List Family
  outcome : RollbackOutcome
deriving Repr, DecidableEq

/-- Embedding of `aggressive_rollback`: escalate per family through restore,
flush and per-rule delete, verify post-hoc, and clean up or retain the
backup files according to the final outcome. -/
def aggressive_rollback (env : RollbackEnv) : RollbackResult :=
  let s4 := rollbackAfterFlushSuccess env Family.v4
  let s6 := rollbackAfterFlushSuccess env Family.v6
  let att3 :=
    if s4 && s6 then (([] : List (Family × ChangeItem)), true, true)
    else attempt3Go env (!s4) (!s6) VMWARE_BLOCK_RULES.reverse
  let s4' := if !s4 && att3.2.1 then true else s4
  let s6' := if !s6 && att3.2.2 then true else s6
  let vf := rollbackVerifyFailed env
  let full := s4' && s6' && !vf
  { successV4 := s4', successV6 := s6', verifyFailed := vf,
    deleteTrace := att3.1,
    backupsDeleted := full,
    retainedReported := if full then [] else bothFamilies.filter env.backupExists,
    outcome := if full then .rolledBack else .rollbackIncomplete }

/-! ### Confirmation wait loop (main, phase 4) -/

/-- Environment oracle for the wait loop: the value of `State.confirmed`
read at each tick, the elapsed seconds sampled at each tick, and whether the
remainder of the tick body (printing, sleeping) raises an exception.  The
clock is modelled at integer resolution; `ROLLBACK_TIMEOUT_SECONDS = 300`. -/
structure WaitEnv where
  confirmed : Nat → Bool
  elapsed : Nat → Int
  raises : Nat → Bool

/-- The timeout constant of the script. -/
def ROLLBACK_TIMEOUT_SECONDS : Int := 300

/-- Terminal result of the wait phase: the commit path ran (`commit_rules`,
return code 0) or the rollback path ran (`aggressive_rollback`, return
code 1) — the latter on timeout and on an in-loop exception alike. -/
inductive WaitOutcome where
  | committed
  | rolledBack
deriving Repr, DecidableEq

/-- One run of the `while True` wait loop starting at tick `t`, with fuel
bounding the number of iterations (`none` = fuel ran out before a decision).
Each iteration samples the clock, polls `confirmed` first, then the
deadline, then executes the rest of the body, whose exception is caught by
the surrounding handler and routed to the rollback path. -/
def waitLoopGo (env : WaitEnv) : Nat → Nat → Option (WaitOutcome × Int)
  | 0, _ => none
  | fuel + 1, t =>
    if env.confirmed t then some (WaitOutcome.committed, 0)
    else if ROLLBACK_TIMEOUT_SECONDS - env.elapsed t ≤ 0 then
      some (WaitOutcome.rolledBack, 1)
    else if env.raises t then some (WaitOutcome.rolledBack, 1)
    else waitLoopGo env fuel (t + 1)

/-- The wait phase of `main`, from tick 0. -/
def waitLoop (env : WaitEnv) (fuel : Nat) : Option (WaitOutcome × Int) :=
  waitLoopGo env fuel 0

/-! ### Theorems -/

/-- The match predicate of the rule-scanning loop: the rule's protocol and
destination port equal the query. -/
def matchesQuery (protocol : String) (port : Int) (r : IptablesRule) : Bool :=
  decide (r.protocol = protocol ∧ r.port = port)

/-- Independent characterization of when one family's rollback escalation
ends in success: the snapshot restore succeeded, or the chain flush
succeeded, or every change item's rule was confirmed deleted. -/
def familyRollbackSucceeds (env : RollbackEnv) (f : Family) : Bool :=
  rollbackRestoreSuccess env f || (try3 (env.flushOk f)).1 ||
    VMWARE_BLOCK_RULES.all (fun item => (try3 (env.deleteOk f item)).1)

/-- The per-family success flag of the rollback result. -/
def familySuccessField (r : RollbackResult) (f : Family) : Bool :=
  match f with
  | Family.v4 => r.successV4
  | Family.v6 => r.successV6

/-- The delete commands of the trace issued for one family, in order. -/
def deletesFor (f : Family) (tr : List (Family × ChangeItem)) : List ChangeItem :=
  (tr.filter (fun p => decide (p.1 = f))).map Prod.snd

/-- The per-rule delete commands Attempt 3 issues for one family over an
item list: for each item in order, one delete attempt repeated until the
first success, capped at 3. -/
def expectedDeletes (env : RollbackEnv) (f : Family) : List ChangeItem → List ChangeItem
  | [] => []
  | it :: rest =>
    List.replicate (try3 (env.deleteOk f it)).2 it ++ expectedDeletes env f rest

/-- A concrete rollback environment: no backup files, flush always failing,
and the v4 delete of the tcp/8333 item failing on its first attempt and
succeeding on its second. -/
def envAttempt3 : RollbackEnv :=
  { backupExists := fun _ => false,
    restoreOk := fun _ _ => false,
    flushOk := fun _ _ => false,
    deleteOk := fun f it i =>
      match f with
      | Family.v4 => if it.port = 8333 then decide (1 ≤ i) else true
      | Family.v6 => true,
    postListing := fun _ => "-P INPUT ACCEPT" }

/-- A line (after stripping) that declares a policy with a value outside
the two recognized ones: first token is the policy marker and the third
token is neither ACCEPT nor DROP. -/
def badPolicyLine (l : String) : Bool :=
  decide ((pySplitWs l).getD 0 "" = "-P") &&
  decide ((pySplitWs l).getD 2 "" ≠ "ACCEPT" ∧ (pySplitWs l).getD 2 "" ≠ "DROP")

/-- A line (after stripping) that declares an INPUT rule carrying a
recognized protocol and a destination port but no `-j` action: exactly the
rule shape whose processing raises instead of being skipped. -/
def ruleNoActionLine (l : String) : Bool :=
  decide ((pySplitWs l).getD 0 "" = "-A") &&
  !decide ((pySplitWs l).length < 3) &&
  decide ((pySplitWs l).getD 1 "" = "INPUT") &&
  (match (pySplitWs l).findIdx? (fun t => t = "-p") with
   | none => false
   | some pIdx =>
     decide (pIdx + 1 < (pySplitWs l).length) &&
     !decide ((pySplitWs l).getD (pIdx + 1) "" ≠ "tcp" ∧
              (pySplitWs l).getD (pIdx + 1) "" ≠ "udp") &&
     (match (pySplitWs l).findIdx? (fun t => t = "--dport") with
      | none => false
      | some dIdx =>
        decide (dIdx + 1 < (pySplitWs l).length) &&
        (match pyInt? ((pySplitWs l).getD (dIdx + 1) "") with
         | none => false
         | some _ =>
           match (pySplitWs l).findIdx? (fun t => t = "-j") with
           | none => true
           | some jIdx => !decide (jIdx + 1 < (pySplitWs l).length))))

theorem matchesQuery_iff (protocol : String) (port : Int) (r : IptablesRule) :
    matchesQuery protocol port r = true ↔ (r.protocol = protocol ∧ r.port = port) := by
  simp [matchesQuery]

theorem checkRulesGo_find?_accept (protocol : String) (port : Int) (policy : String)
    (rules : List IptablesRule) (r : IptablesRule)
    (hfind : rules.find? (matchesQuery protocol port) = some r)
    (hacc : r.action = "ACCEPT") :
    (checkRulesGo protocol port policy rules).1 = false := by
  induction rules with
  | nil => simp [List.find?] at hfind
  | cons hd tl ih =>
    by_cases hm : matchesQuery protocol port hd = true
    · rw [List.find?_cons_of_pos _ hm] at hfind
      obtain rfl : hd = r := by simpa using hfind
      have hmatch := (matchesQuery_iff protocol port hd).mp hm
      rw [checkRulesGo, if_pos hmatch, if_neg (by rw [hacc]; decide),
        if_pos (by rw [hacc])]
    · rw [List.find?_cons_of_neg _ hm] at hfind
      rw [checkRulesGo, if_neg (fun hc => hm ((matchesQuery_iff protocol port hd).mpr hc))]
      exact ih hfind

/-- C3: for every chain and every (protocol, port) query, if the first rule
in ordinal order whose protocol and port match the query has action ACCEPT,
`check_port_is_blocked` returns blocked = false, regardless of any later
matching DROP or REJECT rules (first-match-wins). -/
theorem first_matching_accept_rule_gives_not_blocked
    (chain : IptablesChain) (protocol : String) (port : Int) (r : IptablesRule)
    (hfind : chain.rules.find? (matchesQuery protocol port) = some r)
    (hacc : r.action = "ACCEPT") :
    (check_port_is_blocked chain protocol port).1 = false := by
  exact checkRulesGo_find?_accept protocol port chain.policy chain.rules r hfind hacc

/-- Witness for C3: a chain whose first matching rule ACCEPTs tcp/902 and
whose second matching rule DROPs it is reported not blocked. -/
theorem first_matching_accept_rule_gives_not_blocked_witness :
    (check_port_is_blocked
      { policy := "ACCEPT",
        rules := [ { rule_number := 1, protocol := "tcp", port := 902,
                     action := "ACCEPT", raw_line := "a" },
                   { rule_number := 2, protocol := "tcp", port := 902,
                     action := "DROP", raw_line := "b" } ] }
      "tcp" 902).1 = false := by
  exact first_matching_accept_rule_gives_not_blocked _ "tcp" 902
    { rule_number := 1, protocol := "tcp", port := 902,
      action := "ACCEPT", raw_line := "a" }
    (by decide) (by decide)

theorem checkRulesGo_no_match (protocol : String) (port : Int) (policy : String)
    (rules : List IptablesRule)
    (hall : ∀ r ∈ rules, matchesQuery protocol port r = false) :
    (checkRulesGo protocol port policy rules).1 = decide (policy = "DROP") := by
  induction rules with
  | nil =>
    rw [checkRulesGo]
    by_cases hp : policy = "DROP"
    · rw [if_pos hp]; simp [hp]
    · rw [if_neg hp]; simp [hp]
  | cons hd tl ih =>
    have hhd := hall hd (List.mem_cons_self hd tl)
    rw [checkRulesGo,
      if_neg (fun hc => by simp [matchesQuery, hc.1, hc.2] at hhd)]
    exact ih (fun r hr => hall r (List.mem_cons_of_mem hd hr))

/-- C4: for every chain and every (protocol, port) query matched by no rule
of the chain, `check_port_is_blocked` returns blocked = true exactly when
the chain's default policy is DROP. -/
theorem no_matching_rule_gives_policy_fallback
    (chain : IptablesChain) (protocol : String) (port : Int)
    (hall : ∀ r ∈ chain.rules, matchesQuery protocol port r = false) :
    (check_port_is_blocked chain protocol port).1 = decide (chain.policy = "DROP") := by
  exact checkRulesGo_no_match protocol port chain.policy chain.rules hall

/-- Witness for C4: a chain with one udp rule and policy DROP reports a tcp
query as blocked by the policy fallback. -/
theorem no_matching_rule_gives_policy_fallback_witness :
    (check_port_is_blocked
      { policy := "DROP",
        rules := [ { rule_number := 1, protocol := "udp", port := 902,
                     action := "ACCEPT", raw_line := "a" } ] }
      "tcp" 902).1 = decide (("DROP" : String) = "DROP") := by
  exact no_matching_rule_gives_policy_fallback _ "tcp" 902 (by decide)

/-- C7: at any tick of the wait loop, a true `confirmed` flag transitions to
the commit path (exit 0); a false flag with elapsed time at or past the
300-second deadline transitions to the rollback path (exit 1); and an
exception raised in the body is caught and routed to the rollback path,
exactly as a timeout would be. -/
theorem wait_loop_tick_behavior (env : WaitEnv) (fuel t : Nat) :
    (env.confirmed t = true →
      waitLoopGo env (fuel + 1) t = some (WaitOutcome.committed, 0)) ∧
    (env.confirmed t = false → ROLLBACK_TIMEOUT_SECONDS ≤ env.elapsed t →
      waitLoopGo env (fuel + 1) t = some (WaitOutcome.rolledBack, 1)) ∧
    (env.confirmed t = false → env.elapsed t < ROLLBACK_TIMEOUT_SECONDS →
      env.raises t = true →
      waitLoopGo env (fuel + 1) t = some (WaitOutcome.rolledBack, 1)) := by
  refine ⟨fun hc => ?_, fun hc hd => ?_, fun hc hd hr => ?_⟩
  · rw [waitLoopGo, if_pos hc]
  · rw [waitLoopGo, if_neg (by simp [hc]), if_pos (by omega)]
  · rw [waitLoopGo, if_neg (by simp [hc]), if_neg (by omega), if_pos hr]

/-- Witness for C7: concrete wait environments exercising the commit tick,
the timeout tick, and the exception tick. -/
theorem wait_loop_tick_behavior_witness :
    waitLoopGo ⟨fun _ => true, fun _ => 0, fun _ => false⟩ 1 0 =
      some (WaitOutcome.committed, 0) ∧
    waitLoopGo ⟨fun _ => false, fun _ => 300, fun _ => false⟩ 1 0 =
      some (WaitOutcome.rolledBack, 1) ∧
    waitLoopGo ⟨fun _ => false, fun _ => 7, fun _ => true⟩ 1 0 =
      some (WaitOutcome.rolledBack, 1) := by
  refine ⟨?_, ?_, ?_⟩
  · exact (wait_loop_tick_behavior ⟨fun _ => true, fun _ => 0, fun _ => false⟩ 0 0).1 rfl
  · exact (wait_loop_tick_behavior ⟨fun _ => false, fun _ => 300, fun _ => false⟩ 0 0).2.1
      rfl (by decide)
  · exact (wait_loop_tick_behavior ⟨fun _ => false, fun _ => 7, fun _ => true⟩ 0 0).2.2
      rfl (by decide) rfl

/-- C10: in every iteration of the wait loop the `confirmed` flag is checked
before the deadline, so a tick at which confirmation has been delivered
commits even when the 300-second deadline has also already elapsed. -/
theorem confirmed_checked_before_deadline (env : WaitEnv) (fuel t : Nat)
    (hc : env.confirmed t = true)
    (_hd : ROLLBACK_TIMEOUT_SECONDS ≤ env.elapsed t) :
    waitLoopGo env (fuel + 1) t = some (WaitOutcome.committed, 0) := by
  rw [waitLoopGo, if_pos hc]

/-- Witness for C10: at a tick where the flag is set and 301 seconds have
elapsed, the loop commits. -/
theorem confirmed_checked_before_deadline_witness :
    waitLoopGo ⟨fun _ => true, fun _ => 301, fun _ => false⟩ 5 0 =
      some (WaitOutcome.committed, 0) := by
  exact confirmed_checked_before_deadline ⟨fun _ => true, fun _ => 301, fun _ => false⟩
    4 0 rfl (by decide)

theorem applyRulesGo_failure_aborts (applyOk : Family → ChangeItem → Bool)
    (items : List ChangeItem) (acc : List (Family × ChangeItem))
    (hfail : ∃ f, ∃ item ∈ items, applyOk f item = false) :
    (applyRulesGo applyOk items acc).rollbackInvoked = true ∧
    (applyRulesGo applyOk items acc).exitCode = some 1 := by
  induction items generalizing acc with
  | nil => obtain ⟨f, item, hmem, _⟩ := hfail; simp at hmem
  | cons hd tl ih =>
    by_cases h4 : applyOk Family.v4 hd = false
    · rw [applyRulesGo, if_pos h4]; exact ⟨rfl, rfl⟩
    · rw [applyRulesGo, if_neg h4]
      by_cases h6 : applyOk Family.v6 hd = false
      · rw [if_pos h6]; exact ⟨rfl, rfl⟩
      · rw [if_neg h6]
        refine ih _ ?_
        obtain ⟨f, item, hmem, hff⟩ := hfail
        rcases List.mem_cons.mp hmem with rfl | hmem'
        · cases f
          · exact absurd hff h4
          · exact absurd hff h6
        · exact ⟨f, item, hmem', hff⟩

/-- C1: if applying any single change item fails (the append command for
either family of some item of the change set returns non-zero), then
`apply_rules` invokes `aggressive_rollback` before returning and exits the
process with code 1, never reporting success (exit code 0). -/
theorem apply_failure_invokes_rollback_and_never_succeeds
    (applyOk : Family → ChangeItem → Bool)
    (hfail : ∃ f, ∃ item ∈ VMWARE_BLOCK_RULES, applyOk f item = false) :
    (apply_rules applyOk).rollbackInvoked = true ∧
    (apply_rules applyOk).exitCode = some 1 ∧
    (apply_rules applyOk).exitCode ≠ some 0 := by
  obtain ⟨h1, h2⟩ := applyRulesGo_failure_aborts applyOk VMWARE_BLOCK_RULES [] hfail
  refine ⟨h1, h2, ?_⟩
  rw [show (apply_rules applyOk).exitCode = some 1 from h2]
  decide

/-- Witness for C1: an environment in which the third change item's v6
append fails makes the run roll back and exit non-zero. -/
theorem apply_failure_invokes_rollback_and_never_succeeds_witness :
    (apply_rules (fun f item => !(f = Family.v6 ∧ item.port = 912))).rollbackInvoked = true ∧
    (apply_rules (fun f item => !(f = Family.v6 ∧ item.port = 912))).exitCode = some 1 ∧
    (apply_rules (fun f item => !(f = Family.v6 ∧ item.port = 912))).exitCode ≠ some 0 := by
  exact apply_failure_invokes_rollback_and_never_succeeds _
    ⟨Family.v6,
     { protocol := "tcp", port := 912, description := "VMware Authorization Service" },
     by decide, by decide⟩

theorem run_all_verifications_iff (env : MainEnv) :
    run_all_verifications env = true ↔
      (env.isRoot = true ∧
       (∀ c ∈ REQUIRED_COMMANDS, env.whichOk c = true) ∧
       (∀ f ∈ bothFamilies,
         verify_iptables_format_one (env.listingRC f) (env.listing f) = true) ∧
       (∀ f ∈ bothFamilies, verify_input_chain_empty_one (env.listing f) = true) ∧
       (∀ f ∈ bothFamilies, verify_policy_is_accept_one (env.listing f) = true) ∧
       env.backupExistsAtStart Family.v4 = false ∧
       env.backupExistsAtStart Family.v6 = false) := by
  simp [run_all_verifications, List.all_eq_true]

/-- C2: a run in which any precondition check fails (not root, a missing
required tool, a listing that fails the strict format check, a non-empty
INPUT chain, a policy other than ACCEPT, or a stale snapshot file) aborts
with exit code 1 before creating any snapshot file, invoking any
change-item command, or entering the rollback path. -/
theorem precondition_failure_has_no_side_effects
    (env : MainEnv) (applyOk : Family → ChangeItem → Bool)
    (hfail :
      env.isRoot = false ∨
      (∃ c ∈ REQUIRED_COMMANDS, env.whichOk c = false) ∨
      (∃ f ∈ bothFamilies,
        verify_iptables_format_one (env.listingRC f) (env.listing f) = false) ∨
      (∃ f ∈ bothFamilies, verify_input_chain_empty_one (env.listing f) = false) ∨
      (∃ f ∈ bothFamilies, verify_policy_is_accept_one (env.listing f) = false) ∨
      env.backupExistsAtStart Family.v4 = true ∨
      env.backupExistsAtStart Family.v6 = true) :
    mainModel env applyOk =
      { snapshotsWritten := [], changeCmdsInvoked := [], rollbackInvoked := false,
        exitCode := some 1 } := by
  have hver : run_all_verifications env = false := by
    rw [Bool.eq_false_iff]
    intro htrue
    obtain ⟨hroot, hcmds, hfmt, hempty, hpol, hb4, hb6⟩ :=
      (run_all_verifications_iff env).mp htrue
    rcases hfail with h | ⟨c, hc, hcf⟩ | ⟨f, hf, hff⟩ | ⟨f, hf, hff⟩ | ⟨f, hf, hff⟩ | h | h
    · rw [hroot] at h; simp at h
    · rw [hcmds c hc] at hcf; simp at hcf
    · rw [hfmt f hf] at hff; simp at hff
    · rw [hempty f hf] at hff; simp at hff
    · rw [hpol f hf] at hff; simp at hff
    · rw [hb4] at h; simp at h
    · rw [hb6] at h; simp at h
  rw [mainModel, if_pos hver]

/-- Witness for C2: a non-root run aborts with the empty side-effect trace. -/
theorem precondition_failure_has_no_side_effects_witness :
    mainModel
      { isRoot := false, whichOk := fun _ => true, listingRC := fun _ => 0,
        listing := fun _ => "-P INPUT ACCEPT", saveRC := fun _ => 0,
        backupExistsAtStart := fun _ => false }
      (fun _ _ => true) =
      { snapshotsWritten := [], changeCmdsInvoked := [], rollbackInvoked := false,
        exitCode := some 1 } := by
  exact precondition_failure_has_no_side_effects _ _ (Or.inl rfl)


theorem rollbackAfterFlushSuccess_eq (env : RollbackEnv) (f : Family) :
    rollbackAfterFlushSuccess env f =
      (rollbackRestoreSuccess env f || (try3 (env.flushOk f)).1) := by
  by_cases h : rollbackRestoreSuccess env f = true <;>
    simp [rollbackAfterFlushSuccess, h]

theorem attempt3Go_allV4 (env : RollbackEnv) (doV6 : Bool) (items : List ChangeItem) :
    (attempt3Go env true doV6 items).2.1 =
      items.all (fun it => (try3 (env.deleteOk Family.v4 it)).1) := by
  induction items with
  | nil => rfl
  | cons hd tl ih => simp [attempt3Go, ih]

theorem attempt3Go_allV6 (env : RollbackEnv) (doV4 : Bool) (items : List ChangeItem) :
    (attempt3Go env doV4 true items).2.2 =
      items.all (fun it => (try3 (env.deleteOk Family.v6 it)).1) := by
  induction items with
  | nil => rfl
  | cons hd tl ih => simp [attempt3Go, ih]

theorem decide_forall_mem_eq_all {α : Type} (l : List α) (p : α → Bool) :
    decide (∀ x ∈ l, p x = true) = l.all p := by
  by_cases h : ∀ x ∈ l, p x = true
  · rw [decide_eq_true h, List.all_eq_true.mpr h]
  · cases hb : l.all p
    · rw [decide_eq_false h]
    · exact absurd (List.all_eq_true.mp hb) h

theorem aggressive_rollback_success_fields (env : RollbackEnv) :
    (aggressive_rollback env).successV4 = familyRollbackSucceeds env Family.v4 ∧
    (aggressive_rollback env).successV6 = familyRollbackSucceeds env Family.v6 := by
  have h4 := rollbackAfterFlushSuccess_eq env Family.v4
  have h6 := rollbackAfterFlushSuccess_eq env Family.v6
  by_cases hs4 : rollbackAfterFlushSuccess env Family.v4 = true <;>
    by_cases hs6 : rollbackAfterFlushSuccess env Family.v6 = true <;>
      simp only [aggressive_rollback, hs4, hs6, Bool.eq_false_iff.mp] <;>
      simp_all [familyRollbackSucceeds, attempt3Go_allV4, attempt3Go_allV6,
        List.all_reverse] <;>
      simp [decide_forall_mem_eq_all]

/-- C6: the rollback outcome is ROLLED_BACK exactly when both address
families' escalation reported success and the post-hoc verification found no
residual change-item rule; the snapshot files are deleted exactly in that
outcome, and otherwise they are retained with the existing paths reported. -/
theorem rollback_outcome_characterized (env : RollbackEnv) :
    ((aggressive_rollback env).outcome = RollbackOutcome.rolledBack ↔
      (familyRollbackSucceeds env Family.v4 = true ∧
       familyRollbackSucceeds env Family.v6 = true ∧
       rollbackVerifyFailed env = false)) ∧
    ((aggressive_rollback env).backupsDeleted = true ↔
      (aggressive_rollback env).outcome = RollbackOutcome.rolledBack) ∧
    ((aggressive_rollback env).retainedReported =
      if (aggressive_rollback env).outcome = RollbackOutcome.rolledBack then []
      else bothFamilies.filter env.backupExists) := by
  obtain ⟨h4, h6⟩ := aggressive_rollback_success_fields env
  have hvf : (aggressive_rollback env).verifyFailed = rollbackVerifyFailed env := rfl
  have hout : (aggressive_rollback env).outcome =
      (if (aggressive_rollback env).successV4 && (aggressive_rollback env).successV6
          && !(aggressive_rollback env).verifyFailed
       then RollbackOutcome.rolledBack else RollbackOutcome.rollbackIncomplete) := rfl
  have hdel : (aggressive_rollback env).backupsDeleted =
      ((aggressive_rollback env).successV4 && (aggressive_rollback env).successV6
        && !(aggressive_rollback env).verifyFailed) := rfl
  have hret : (aggressive_rollback env).retainedReported =
      (if (aggressive_rollback env).backupsDeleted then ([] : List Family)
       else bothFamilies.filter env.backupExists) := rfl
  rw [h4, h6, hvf] at hout hdel
  refine ⟨?_, ?_, ?_⟩ <;>
    by_cases ha : familyRollbackSucceeds env Family.v4 = true <;>
    by_cases hb : familyRollbackSucceeds env Family.v6 = true <;>
    by_cases hc : rollbackVerifyFailed env = true <;>
    simp_all [hout, hdel, hret]




theorem deletesFor_append (f : Family) (a b : List (Family × ChangeItem)) :
    deletesFor f (a ++ b) = deletesFor f a ++ deletesFor f b := by
  simp [deletesFor]

theorem deletesFor_replicate_same (f : Family) (n : Nat) (item : ChangeItem) :
    deletesFor f (List.replicate n (f, item)) = List.replicate n item := by
  induction n with
  | zero => rfl
  | succ k ih => simp_all [deletesFor, List.replicate_succ]

theorem deletesFor_replicate_other (f g : Family) (n : Nat) (item : ChangeItem)
    (h : g ≠ f) : deletesFor f (List.replicate n (g, item)) = [] := by
  induction n with
  | zero => rfl
  | succ k ih => simp_all [deletesFor, List.replicate_succ, h]

theorem deletesFor_nil (f : Family) : deletesFor f [] = [] := rfl

theorem attempt3Go_deletes_v4 (env : RollbackEnv) (doV6 : Bool)
    (items : List ChangeItem) :
    deletesFor Family.v4 (attempt3Go env true doV6 items).1 =
      expectedDeletes env Family.v4 items := by
  induction items with
  | nil => rfl
  | cons hd tl ih =>
    cases doV6 <;>
      simp [attempt3Go, expectedDeletes, deletesFor_append, deletesFor_nil,
        deletesFor_replicate_same, ih,
        deletesFor_replicate_other Family.v4 Family.v6 _ hd (by decide)]

theorem attempt3Go_deletes_v6 (env : RollbackEnv) (doV4 : Bool)
    (items : List ChangeItem) :
    deletesFor Family.v6 (attempt3Go env doV4 true items).1 =
      expectedDeletes env Family.v6 items := by
  induction items with
  | nil => rfl
  | cons hd tl ih =>
    cases doV4 <;>
      simp [attempt3Go, expectedDeletes, deletesFor_append, deletesFor_nil,
        deletesFor_replicate_same, ih,
        deletesFor_replicate_other Family.v6 Family.v4 _ hd (by decide)]

theorem try3_snd_bounds (ok : Nat → Bool) :
    1 ≤ (try3 ok).2 ∧ (try3 ok).2 ≤ 3 := by
  by_cases h0 : ok 0 = true <;> by_cases h1 : ok 1 = true <;>
    by_cases h2 : ok 2 = true <;> simp_all [try3]

/-- C8 (amended): when restore and flush have both failed for a family,
Attempt 3 iterates the change-item list in reverse application order and
issues between 1 and 3 delete attempts per item (retrying on failure,
stopping at the first success), and the family is marked done exactly when
every item was confirmed deleted. -/
theorem rollback_attempt3_trace (env : RollbackEnv) (f : Family)
    (hflush : rollbackAfterFlushSuccess env f = false) :
    deletesFor f (aggressive_rollback env).deleteTrace =
      expectedDeletes env f VMWARE_BLOCK_RULES.reverse ∧
    (∀ it : ChangeItem,
      1 ≤ (try3 (env.deleteOk f it)).2 ∧ (try3 (env.deleteOk f it)).2 ≤ 3) ∧
    familySuccessField (aggressive_rollback env) f =
      VMWARE_BLOCK_RULES.all (fun it => (try3 (env.deleteOk f it)).1) := by
  have hrf := rollbackAfterFlushSuccess_eq env f
  rw [hflush] at hrf
  have hrs : rollbackRestoreSuccess env f = false ∧ (try3 (env.flushOk f)).1 = false :=
    Bool.or_eq_false_iff.mp hrf.symm
  have htr : (aggressive_rollback env).deleteTrace =
      (if rollbackAfterFlushSuccess env Family.v4 && rollbackAfterFlushSuccess env Family.v6
       then (([] : List (Family × ChangeItem)), true, true)
       else attempt3Go env (!rollbackAfterFlushSuccess env Family.v4)
         (!rollbackAfterFlushSuccess env Family.v6) VMWARE_BLOCK_RULES.reverse).1 := rfl
  obtain ⟨hs4f, hs6f⟩ := aggressive_rollback_success_fields env
  refine ⟨?_, fun it => try3_snd_bounds _, ?_⟩
  · cases f
    · rw [htr, hflush]
      simp only [Bool.false_and, if_neg Bool.false_ne_true, Bool.not_false]
      exact attempt3Go_deletes_v4 env _ _
    · rw [htr, hflush]
      simp only [Bool.and_false, if_neg Bool.false_ne_true, Bool.not_false]
      exact attempt3Go_deletes_v6 env _ _
  · cases f
    · rw [familySuccessField, hs4f, familyRollbackSucceeds, hrs.1, hrs.2]
      simp
    · rw [familySuccessField, hs6f, familyRollbackSucceeds, hrs.1, hrs.2]
      simp


/-- Witness for C8: the amended statement applied to `envAttempt3`. -/
theorem rollback_attempt3_trace_witness :
    deletesFor Family.v4 (aggressive_rollback envAttempt3).deleteTrace =
      expectedDeletes envAttempt3 Family.v4 VMWARE_BLOCK_RULES.reverse ∧
    (∀ it : ChangeItem,
      1 ≤ (try3 (envAttempt3.deleteOk Family.v4 it)).2 ∧
      (try3 (envAttempt3.deleteOk Family.v4 it)).2 ≤ 3) ∧
    familySuccessField (aggressive_rollback envAttempt3) Family.v4 =
      VMWARE_BLOCK_RULES.all
        (fun it => (try3 (envAttempt3.deleteOk Family.v4 it)).1) :=
  rollback_attempt3_trace envAttempt3 Family.v4 (by decide)

/-- Counterexample for C8 as stated: Attempt 3 does not make exactly one
deletion attempt per item — in `envAttempt3` the tcp/8333 item receives two
v4 delete attempts. -/
theorem rollback_attempt3_not_single_attempt :
    (deletesFor Family.v4 (aggressive_rollback envAttempt3).deleteTrace).count
      { protocol := "tcp", port := 8333,
        description := "VMware Management Interface (HTTPS)" } = 2 := by
  decide


theorem processLine_err_of_badPolicy (cmd line : String) (p : Option String)
    (n : Nat) (rs : List IptablesRule) (h : badPolicyLine (pyStrip line) = true) :
    (processLine cmd line p n rs).isErr = true := by
  rw [badPolicyLine, Bool.and_eq_true, decide_eq_true_eq, decide_eq_true_eq] at h
  obtain ⟨h0, h2⟩ := h
  have hne : pyStrip line ≠ "" := by
    intro hblank
    rw [hblank, show pySplitWs "" = [] from rfl] at h0
    simp at h0
  simp only [processLine]
  rw [if_neg hne]
  by_cases hlen : (pySplitWs (pyStrip line)).length < 2
  · rw [if_pos hlen]; rfl
  · rw [if_neg hlen, if_pos h0]
    by_cases h3 : (pySplitWs (pyStrip line)).length ≠ 3
    · rw [if_pos h3]; rfl
    · rw [if_neg h3]
      by_cases hi : (pySplitWs (pyStrip line)).getD 1 "" ≠ "INPUT"
      · rw [if_pos hi]; rfl
      · rw [if_neg hi, if_pos h2]; rfl

theorem parseGo_cons_cont (cmd line : String) (rest : List String)
    (p : Option String) (n : Nat) (rs : List IptablesRule)
    (p' : Option String) (n' : Nat) (rs' : List IptablesRule)
    (hstep : processLine cmd line p n rs = .cont p' n' rs') :
    parseGo cmd (line :: rest) p n rs = parseGo cmd rest p' n' rs' := by
  rw [parseGo, hstep]

theorem parseGo_cons_err (cmd line : String) (rest : List String)
    (p : Option String) (n : Nat) (rs : List IptablesRule) (msg : String)
    (hstep : processLine cmd line p n rs = .err msg) :
    parseGo cmd (line :: rest) p n rs = .error msg := by
  rw [parseGo, hstep]


theorem processLine_err_of_ruleNoAction (cmd line : String) (p : Option String)
    (n : Nat) (rs : List IptablesRule) (h : ruleNoActionLine (pyStrip line) = true) :
    (processLine cmd line p n rs).isErr = true := by
  by_cases hblank : pyStrip line = ""
  · rw [hblank] at h; exact absurd h (by decide)
  · rw [ruleNoActionLine] at h
    simp only [Bool.and_eq_true, decide_eq_true_eq, Bool.not_eq_true',
      decide_eq_false_iff_not] at h
    obtain ⟨⟨⟨h0, h3⟩, h1⟩, hm⟩ := h
    simp only [processLine]
    rw [if_neg hblank, if_neg (show ¬((pySplitWs (pyStrip line)).length < 2) by omega),
      if_neg (show ¬((pySplitWs (pyStrip line)).getD 0 "" = "-P") by rw [h0]; decide),
      if_pos h0, if_neg h3, if_neg (fun hc => hc h1)]
    cases hfp : (pySplitWs (pyStrip line)).findIdx? (fun t => t = "-p") with
    | none => rw [hfp] at hm; simp at hm
    | some pIdx =>
      rw [hfp] at hm
      simp only [Bool.and_eq_true, decide_eq_true_eq, Bool.not_eq_true',
        decide_eq_false_iff_not] at hm
      obtain ⟨⟨hpl, hproto⟩, hm2⟩ := hm
      simp only [hfp]
      rw [if_pos hpl, if_neg hproto]
      cases hfd : (pySplitWs (pyStrip line)).findIdx? (fun t => t = "--dport") with
      | none => rw [hfd] at hm2; simp at hm2
      | some dIdx =>
        rw [hfd] at hm2
        simp only [Bool.and_eq_true, decide_eq_true_eq] at hm2
        obtain ⟨hdl, hm3⟩ := hm2
        simp only [hfd]
        rw [if_pos hdl]
        cases hpi : pyInt? ((pySplitWs (pyStrip line)).getD (dIdx + 1) "") with
        | none => rw [hpi] at hm3; simp at hm3
        | some k =>
          rw [hpi] at hm3
          simp only [hpi]
          cases hfj : (pySplitWs (pyStrip line)).findIdx? (fun t => t = "-j") with
          | none => simp only [hfj]; rfl
          | some jIdx =>
            rw [hfj] at hm3
            simp only [Bool.not_eq_true', decide_eq_false_iff_not] at hm3
            simp only [hfj]
            rw [if_neg hm3]
            rfl

theorem parseGo_error_of_bad_line (cmd : String) (P : String → Bool)
    (hstep : ∀ line p n rs, P (pyStrip line) = true →
      (processLine cmd line p n rs).isErr = true)
    (lines : List String) (hbad : ∃ l ∈ lines, P (pyStrip l) = true)
    (p : Option String) (n : Nat) (rs : List IptablesRule) :
    ∃ msg, parseGo cmd lines p n rs = .error msg := by
  induction lines generalizing p n rs with
  | nil => simp at hbad
  | cons hd tl ih =>
    cases hs : processLine cmd hd p n rs with
    | err msg => exact ⟨msg, parseGo_cons_err cmd hd tl p n rs msg hs⟩
    | cont p' n' rs' =>
      rw [parseGo_cons_cont cmd hd tl p n rs p' n' rs' hs]
      obtain ⟨l, hl, hlP⟩ := hbad
      rcases List.mem_cons.mp hl with rfl | hl'
      · have := hstep l p n rs hlP
        rw [hs] at this
        simp [LineStep.isErr] at this
      · exact ih ⟨l, hl', hlP⟩ p' n' rs'

/-- C5 (amended): `parse_iptables_s_output` raises `IptablesParseError` for
empty input, for any input containing a policy declaration whose value is
outside ACCEPT and DROP, and for any input containing an INPUT rule line
that carries a recognized protocol and a destination port but lacks a
terminal `-j` action.  However, a first non-blank line that is a valid rule
declaration is not an error — the policy line may come later — and a rule
line lacking a protocol or destination-port qualifier is skipped even when
it also lacks a terminal action. -/
theorem parse_failure_modes (output cmd : String) :
    (∃ msg, parse_iptables_s_output "" cmd = Except.error msg) ∧
    ((∃ l ∈ linesOf output, badPolicyLine (pyStrip l) = true) →
      ∃ msg, parse_iptables_s_output output cmd = Except.error msg) ∧
    ((∃ l ∈ linesOf output, ruleNoActionLine (pyStrip l) = true) →
      ∃ msg, parse_iptables_s_output output cmd = Except.error msg) ∧
    parse_iptables_s_output "-A INPUT -p tcp -m tcp --dport 80 -j DROP\n-P INPUT ACCEPT"
        "iptables" =
      Except.ok ⟨"ACCEPT",
        [⟨1, "tcp", 80, "DROP", "-A INPUT -p tcp -m tcp --dport 80 -j DROP"⟩]⟩ ∧
    parse_iptables_s_output "-P INPUT ACCEPT\n-A INPUT -s 1.2.3.4" "iptables" =
      Except.ok ⟨"ACCEPT", []⟩ := by
  refine ⟨⟨cmd ++ ": no policy line (-P INPUT ...) found in output", rfl⟩,
    fun hbad => ?_, fun hbad => ?_, rfl, rfl⟩
  · exact parseGo_error_of_bad_line cmd badPolicyLine
      (fun line p n rs hP => processLine_err_of_badPolicy cmd line p n rs hP)
      (linesOf output) hbad none 0 []
  · exact parseGo_error_of_bad_line cmd ruleNoActionLine
      (fun line p n rs hP => processLine_err_of_ruleNoAction cmd line p n rs hP)
      (linesOf output) hbad none 0 []

/-- Witness for C5: the amended failure conditions applied to concrete
inputs with a bad policy value and with an actionless tcp-and-port rule. -/
theorem parse_failure_modes_witness :
    (∃ msg, parse_iptables_s_output "-P INPUT QUEUE" "iptables" = Except.error msg) ∧
    (∃ msg, parse_iptables_s_output "-P INPUT ACCEPT\n-A INPUT -p udp --dport 53"
      "iptables" = Except.error msg) := by
  constructor
  · exact (parse_failure_modes "-P INPUT QUEUE" "iptables").2.1 (by decide)
  · exact (parse_failure_modes "-P INPUT ACCEPT\n-A INPUT -p udp --dport 53"
      "iptables").2.2.1 (by decide)

/-- Counterexample for C5 as stated: an input whose first non-blank line is
a rule declaration (not a policy declaration) parses successfully because
the parser does not require the policy line to come first, and an input
containing a rule line without a terminal action qualifier also parses
successfully when that rule lacks a protocol qualifier (it is skipped). -/
theorem parse_failure_modes_counterexample :
    pyStartsWith
      ((nonblankLines "-A INPUT -p tcp -m tcp --dport 80 -j DROP\n-P INPUT ACCEPT").getD 0 "")
      "-P" = false ∧
    parse_iptables_s_output "-A INPUT -p tcp -m tcp --dport 80 -j DROP\n-P INPUT ACCEPT"
        "iptables" =
      Except.ok ⟨"ACCEPT",
        [⟨1, "tcp", 80, "DROP", "-A INPUT -p tcp -m tcp --dport 80 -j DROP"⟩]⟩ ∧
    pyContains "-A INPUT -s 1.2.3.4" "-j" = false ∧
    parse_iptables_s_output "-P INPUT ACCEPT\n-A INPUT -s 1.2.3.4" "iptables" =
      Except.ok ⟨"ACCEPT", []⟩ :=
  ⟨rfl, rfl, rfl, rfl⟩

theorem processLine_blank (cmd line : String) (p : Option String) (n : Nat)
    (rs : List IptablesRule) (h : pyStrip line = "") :
    processLine cmd line p n rs = .cont p n rs := by
  simp only [processLine, h]
  rfl

theorem parseGo_all_blank (cmd : String) (lines : List String)
    (hall : ∀ l ∈ lines, pyStrip l = "") (p : Option String) (n : Nat)
    (rs : List IptablesRule) :
    parseGo cmd lines p n rs = parseGo cmd [] p n rs := by
  induction lines with
  | nil => rfl
  | cons hd tl ih =>
    rw [parseGo_cons_cont cmd hd tl p n rs p n rs
      (processLine_blank cmd hd p n rs (hall hd (List.mem_cons_self hd tl)))]
    exact ih (fun l hl => hall l (List.mem_cons_of_mem hd hl))

theorem processLine_cont_cases (cmd line : String) (p : Option String) (n : Nat)
    (rs : List IptablesRule) (p' : Option String) (n' : Nat)
    (rs' : List IptablesRule)
    (h : processLine cmd line p n rs = .cont p' n' rs') :
    rs' = rs ∨ p' = p := by
  simp only [processLine] at h
  by_cases hblank : pyStrip line = ""
  · rw [if_pos hblank] at h
    injection h with a b c
    exact Or.inl c.symm
  · rw [if_neg hblank] at h
    by_cases hlen : (pySplitWs (pyStrip line)).length < 2
    · rw [if_pos hlen] at h; cases h
    · rw [if_neg hlen] at h
      by_cases hP : (pySplitWs (pyStrip line)).getD 0 "" = "-P"
      · rw [if_pos hP] at h
        by_cases h3 : (pySplitWs (pyStrip line)).length ≠ 3
        · rw [if_pos h3] at h; cases h
        · rw [if_neg h3] at h
          by_cases hI : (pySplitWs (pyStrip line)).getD 1 "" ≠ "INPUT"
          · rw [if_pos hI] at h; cases h
          · rw [if_neg hI] at h
            by_cases hV : (pySplitWs (pyStrip line)).getD 2 "" ≠ "ACCEPT" ∧
                (pySplitWs (pyStrip line)).getD 2 "" ≠ "DROP"
            · rw [if_pos hV] at h; cases h
            · rw [if_neg hV] at h
              injection h with a b c
              exact Or.inl c.symm
      · rw [if_neg hP] at h
        by_cases hA : (pySplitWs (pyStrip line)).getD 0 "" = "-A"
        · rw [if_pos hA] at h
          by_cases hl3 : (pySplitWs (pyStrip line)).length < 3
          · rw [if_pos hl3] at h; cases h
          · rw [if_neg hl3] at h
            by_cases hI : (pySplitWs (pyStrip line)).getD 1 "" ≠ "INPUT"
            · rw [if_pos hI] at h
              injection h with a b c
              exact Or.inl c.symm
            · rw [if_neg hI] at h
              cases hfp : (pySplitWs (pyStrip line)).findIdx? (fun t => t = "-p") with
              | none =>
                rw [hfp] at h
                injection h with a b c
                exact Or.inl c.symm
              | some pIdx =>
                simp only [hfp] at h
                by_cases hpl : pIdx + 1 < (pySplitWs (pyStrip line)).length
                · rw [if_pos hpl] at h
                  by_cases hpr : (pySplitWs (pyStrip line)).getD (pIdx + 1) "" ≠ "tcp" ∧
                      (pySplitWs (pyStrip line)).getD (pIdx + 1) "" ≠ "udp"
                  · rw [if_pos hpr] at h
                    injection h with a b c
                    exact Or.inl c.symm
                  · rw [if_neg hpr] at h
                    cases hfd : (pySplitWs (pyStrip line)).findIdx?
                        (fun t => t = "--dport") with
                    | none =>
                      rw [hfd] at h
                      injection h with a b c
                      exact Or.inl c.symm
                    | some dIdx =>
                      simp only [hfd] at h
                      by_cases hdl : dIdx + 1 < (pySplitWs (pyStrip line)).length
                      · rw [if_pos hdl] at h
                        cases hpi : pyInt? ((pySplitWs (pyStrip line)).getD (dIdx + 1) "") with
                        | none =>
                          rw [hpi] at h
                          injection h with a b c
                          exact Or.inl c.symm
                        | some port =>
                          simp only [hpi] at h
                          cases hfj : (pySplitWs (pyStrip line)).findIdx?
                              (fun t => t = "-j") with
                          | none => rw [hfj] at h; cases h
                          | some jIdx =>
                            simp only [hfj] at h
                            by_cases hjl : jIdx + 1 < (pySplitWs (pyStrip line)).length
                            · rw [if_pos hjl] at h
                              injection h with a b c
                              exact Or.inr a.symm
                            · rw [if_neg hjl] at h; cases h
                      · rw [if_neg hdl] at h
                        injection h with a b c
                        exact Or.inl c.symm
                · rw [if_neg hpl] at h
                  injection h with a b c
                  exact Or.inl c.symm
        · rw [if_neg hA] at h; cases h

theorem filter_nonblank_cons_blank (hd : String) (tl : List String)
    (h : pyStrip hd = "") :
    ((hd :: tl).map pyStrip).filter (fun l => l ≠ "") =
      (tl.map pyStrip).filter (fun l => l ≠ "") := by
  simp [h]

theorem filter_nonblank_cons_keep (hd : String) (tl : List String)
    (h : pyStrip hd ≠ "") :
    ((hd :: tl).map pyStrip).filter (fun l => l ≠ "") =
      pyStrip hd :: (tl.map pyStrip).filter (fun l => l ≠ "") := by
  simp [h]

theorem parse_single_nonblank (cmd : String) (lines : List String) (ℓ : String)
    (hnb : (lines.map pyStrip).filter (fun l => l ≠ "") = [ℓ])
    (chain : IptablesChain)
    (hok : parseGo cmd lines none 0 [] = Except.ok chain) :
    chain.rules = [] := by
  induction lines with
  | nil => simp at hnb
  | cons hd tl ih =>
    by_cases hhd : pyStrip hd = ""
    · rw [filter_nonblank_cons_blank hd tl hhd] at hnb
      rw [parseGo_cons_cont cmd hd tl none 0 [] none 0 []
        (processLine_blank cmd hd none 0 [] hhd)] at hok
      exact ih hnb hok
    · rw [filter_nonblank_cons_keep hd tl hhd] at hnb
      injection hnb with hhdl htl
      have htlblank : ∀ l ∈ tl, pyStrip l = "" := by
        intro l hl
        by_contra hcon
        have hmem : pyStrip l ∈ (tl.map pyStrip).filter (fun x => x ≠ "") :=
          List.mem_filter.mpr ⟨List.mem_map_of_mem pyStrip hl, by simpa using hcon⟩
        rw [htl] at hmem
        simp at hmem
      cases hstep : processLine cmd hd none 0 [] with
      | err msg =>
        rw [parseGo_cons_err cmd hd tl none 0 [] msg hstep] at hok
        simp at hok
      | cont p' n' rs' =>
        rw [parseGo_cons_cont cmd hd tl none 0 [] p' n' rs' hstep,
          parseGo_all_blank cmd tl htlblank p' n' rs'] at hok
        rcases processLine_cont_cases cmd hd none 0 [] p' n' rs' hstep with hrs | hp
        · cases p' with
          | none => simp [parseGo] at hok
          | some q =>
            simp only [parseGo] at hok
            injection hok with hchain
            rw [← hchain]
            exact hrs
        · rw [hp] at hok
          simp [parseGo] at hok

/-- C9 (amended): the emptiness precondition of `verify_input_chain_empty`
does not consult the Inspector — it passes exactly when the raw listing has
a single non-blank line; whenever the gate passes and the listing parses,
the parsed rules sequence is indeed empty, but a listing whose only rule
lines are ones the Inspector skips is refused rather than counted as empty. -/
theorem empty_gate_implies_parsed_rules_nil (s cmd : String) (chain : IptablesChain)
    (hgate : verify_input_chain_empty_one s = true)
    (hok : parse_iptables_s_output s cmd = Except.ok chain) :
    chain.rules = [] ∧ IsEmptySpec chain = true := by
  rw [verify_input_chain_empty_one, decide_eq_true_eq, nonblankLines, linesOf] at hgate
  obtain ⟨ℓ, hℓ⟩ := List.length_eq_one.mp hgate
  rw [parse_iptables_s_output] at hok
  have hnil := parse_single_nonblank cmd (linesOf s) ℓ (by rw [linesOf]; exact hℓ) chain hok
  exact ⟨hnil, by rw [IsEmptySpec, hnil]; rfl⟩

/-- Witness for C9: the single-line listing of a bare ACCEPT policy passes
the gate and parses to a chain with no rules. -/
theorem empty_gate_implies_parsed_rules_nil_witness :
    (⟨"ACCEPT", []⟩ : IptablesChain).rules = [] ∧
    IsEmptySpec (⟨"ACCEPT", []⟩ : IptablesChain) = true :=
  empty_gate_implies_parsed_rules_nil "-P INPUT ACCEPT" "iptables"
    ⟨"ACCEPT", []⟩ (by decide) rfl

/-- Counterexample for C9 as stated: a listing whose only rule line is one
the Inspector skips (no protocol qualifier) parses to an empty rules
sequence — `IsEmpty` is true — yet the precondition gate refuses it, so the
gate is not equivalent to `IsEmpty` of the parsed chain. -/
theorem empty_gate_not_IsEmpty_counterexample :
    verify_input_chain_empty_one "-P INPUT ACCEPT\n-A INPUT -s 1.2.3.4" = false ∧
    parse_iptables_s_output "-P INPUT ACCEPT\n-A INPUT -s 1.2.3.4" "iptables" =
      Except.ok ⟨"ACCEPT", []⟩ ∧
    IsEmptySpec ⟨"ACCEPT", []⟩ = true :=
  ⟨rfl, rfl, rfl⟩

end NetworkSecurity
